import Mathlib

/-!
Shallow embedding of `app.py` (a Streamlit chat + image front-end for the
OpenAI API).  The embedding models the two relays and the session store:

* the chat tab (`tab_chat`): the per-turn streaming loop over
  `response.output_text.delta` / `response.error` events, the exception
  handler, and the persist block
  (`out_text = getattr(final, "output_text", None) or acc_text`);
* the image tab (`tab_image_generate`): the event loop over
  `image_generation.partial_image`, `image_generation.completed`, the
  alternate terminal event names, the error-event branch, the last-partial
  fallback, and the download / info epilogue;
* the session store (`messages`, `previous_response_id`) and the
  "New chat" reset (`st.session_state.clear()` + `setdefault` defaults).

Python-specific semantics that matter are modelled explicitly: `x or y`
treats `None` and `""` as falsy (`pyOr`); `if final_bytes:` treats empty
bytes as falsy; `final_bytes is None` is a genuine `Option` test;
`getattr(obj, attr, None)` on `None` yields `None`.
-/

/-- One conversation turn, as stored in `st.session_state.messages`:
a dict with a `role` ("user" or "assistant") and a `content` string. -/
structure Turn where
  role : String
  content : String
deriving DecidableEq, Repr

/-- The session-scoped conversation store: `st.session_state.messages`
plus `st.session_state["previous_response_id"]`. -/
structure ConversationState where
  messages : List Turn
  previous_response_id : Option String
deriving DecidableEq, Repr

/-- Python `x or y` for an optional string `x`: returns `y` when `x` is
`None` or the empty string (both falsy in Python), else the contents of
`x`.  Models `getattr(final, "output_text", None) or acc_text`. -/
def pyOr (a : Option String) (b : String) : String :=
  match a with
  | none => b
  | some s => if s = "" then b else s

/-- An event seen by the chat tab's streaming loop.  The source dispatches
on `event.type`: `"response.output_text.delta"` events carry a `delta`
string, `"response.error"` events carry an error, everything else is
ignored. -/
inductive TextStreamEvent where
  | delta (d : String)
  | errorEv (e : String)
  | otherEv
deriving DecidableEq, Repr

/-- The final aggregated response object, as the source reads it:
`getattr(final, "output_text", None)` and `getattr(final, "id", None)`
(`none` models an absent attribute). -/
structure FinalResponse where
  output_text : Option String
  id : Option String
deriving DecidableEq, Repr

/-- Outcome of one streamed call from the chat tab's point of view: either
the whole stream is drained and `stream.get_final_response()` returns a
final object, or a transport/API exception is raised after some prefix of
the events was already processed (covering an exception while opening the
stream, mid-iteration, or inside `get_final_response`). -/
inductive TextStreamOutcome where
  | success (events : List TextStreamEvent) (final : FinalResponse)
  | exception (events : List TextStreamEvent) (message : String)
deriving DecidableEq, Repr

/-- One rendering action on the assistant placeholder
(`placeholder.markdown` / `placeholder.error`). -/
inductive PlaceholderRender where
  | markdown (s : String)
  | error (s : String)
deriving DecidableEq, Repr

/-- The chat tab's event loop: starting from accumulator `acc`, process the
events in order.  A delta event appends to the accumulator and renders the
updated accumulator; an error event renders the error; other events are
ignored.  Returns the final accumulator and the renders in order. -/
def processTextEvents : String → List TextStreamEvent → String × List PlaceholderRender
  | acc, [] => (acc, [])
  | acc, TextStreamEvent.delta d :: rest =>
      let acc2 := acc ++ d
      let r := processTextEvents acc2 rest
      (r.1, PlaceholderRender.markdown acc2 :: r.2)
  | acc, TextStreamEvent.errorEv e :: rest =>
      let r := processTextEvents acc rest
      (r.1, PlaceholderRender.error e :: r.2)
  | acc, TextStreamEvent.otherEv :: rest =>
      processTextEvents acc rest

/-- The accumulator's contents after draining a list of events, starting
from the empty string (the chat tab initialises `acc_text = ""`). -/
def accText (events : List TextStreamEvent) : String :=
  (processTextEvents "" events).1

/-- One chat-tab invocation (the body of `if prompt := st.chat_input(...)`):
append the user turn, drain the stream (or catch the exception, which sets
`final = None` and renders an error), then run the persist block:
`out_text = getattr(final, "output_text", None) or acc_text`; when
`out_text` is truthy, render it, append the assistant turn and overwrite
`previous_response_id` with `getattr(final, "id", None)`.  Returns the
updated store and the placeholder renders in order. -/
def tab_chat (prompt : String) (outcome : TextStreamOutcome)
    (st0 : ConversationState) : ConversationState × List PlaceholderRender :=
  let st1 : ConversationState :=
    ⟨st0.messages ++ [⟨"user", prompt⟩], st0.previous_response_id⟩
  let loopEvents := match outcome with
    | TextStreamOutcome.success evs _ => evs
    | TextStreamOutcome.exception evs _ => evs
  let r := processTextEvents "" loopEvents
  let final : Option FinalResponse := match outcome with
    | TextStreamOutcome.success _ fr => some fr
    | TextStreamOutcome.exception _ _ => none
  let renders := match outcome with
    | TextStreamOutcome.success _ _ => r.2
    | TextStreamOutcome.exception _ m =>
        r.2 ++ [PlaceholderRender.error ("OpenAI error: " ++ m)]
  let out_text := pyOr (final.bind FinalResponse.output_text) r.1
  if out_text ≠ "" then
    (⟨st1.messages ++ [⟨"assistant", out_text⟩], final.bind FinalResponse.id⟩,
     renders ++ [PlaceholderRender.markdown out_text])
  else
    (st1, renders)

/-- An event seen by the image tab's loop: its `type` string (the source
reads `getattr(event, "type", "")`, so an absent type is `""`), its
`b64_json` payload (`none` when the attribute is absent; accessing it
directly on such an event raises `AttributeError`), and its `error`
attribute (`getattr(event, "error", None)`). -/
structure ImageEvent where
  etype : String
  b64_json : Option String
  error : Option String
deriving DecidableEq, Repr

/-- The alternate terminal event names tolerated by the source
(`elif etype in (...)`). -/
def altFinalNames : List String :=
  ["image_generation.image", "image.image", "image.completed",
   "response.image_generation_call.completed"]

/-- One UI action of the image tab: `spot.image` (with its caption),
`st.error`, `st.info`, or offering `st.download_button` with the given
bytes. -/
inductive ImgRender where
  | image (bytes : List Nat) (caption : String)
  | errorMsg (s : String)
  | info (s : String)
  | download (bytes : List Nat)
deriving DecidableEq, Repr

/-- The image loop's mutable state: `gallery` (decoded frames appended by
the partial-image branch), `final_bytes`, and the UI actions so far. -/
structure ImgLoopState where
  gallery : List (List Nat)
  final_bytes : Option (List Nat)
  renders : List ImgRender
deriving DecidableEq, Repr

/-- Python's `s.endswith(sfx)`, modelled over the character sequences (the
built-in `String.endsWith` of the proof assistant is not used so that the
predicate stays kernel-computable). -/
def pyEndsWith (s sfx : String) : Bool :=
  sfx.data.isSuffixOf s.data

/-- Models `repr(event)` opaquely (only used inside the error-branch
message; no claim depends on its exact text). -/
def reprEvent (ev : ImageEvent) : String :=
  "<event " ++ ev.etype ++ ">"

/-- `msg or repr(event)` in the error branch: Python falsiness again
(`None` and `""` fall through to the repr). -/
def imageErrorText (ev : ImageEvent) : String :=
  match ev.error with
  | none => reprEvent ev
  | some m => if m = "" then reprEvent ev else m

/-- Process one image event, mirroring the source's `elif` chain in order:
partial frame, completed frame, alternate terminal names, error events,
ignore.  `decode` is the (external) `base64.b64decode`.  A direct
`event.b64_json` access on an event without the attribute raises, i.e.
returns `Except.error`; that exception is caught by the outer handler. -/
def processImageEvent (decode : String → List Nat) (s : ImgLoopState)
    (ev : ImageEvent) : Except String ImgLoopState :=
  if ev.etype = "image_generation.partial_image" then
    match ev.b64_json with
    | none => Except.error "AttributeError: b64_json"
    | some img_b64 =>
        let img_bytes := decode img_b64
        let gallery2 := s.gallery ++ [img_bytes]
        Except.ok ⟨gallery2, s.final_bytes,
          s.renders ++ [ImgRender.image img_bytes
            ("Partial preview #" ++ toString gallery2.length)]⟩
  else if ev.etype = "image_generation.completed" then
    match ev.b64_json with
    | none => Except.error "AttributeError: b64_json"
    | some img_b64 =>
        let fb := decode img_b64
        Except.ok ⟨s.gallery, some fb,
          s.renders ++ [ImgRender.image fb "Final image"]⟩
  else if ev.etype ∈ altFinalNames then
    match ev.b64_json with
    | none => Except.ok s
    | some img_b64 =>
        if img_b64 ≠ "" then
          let fb := decode img_b64
          Except.ok ⟨s.gallery, some fb,
            s.renders ++ [ImgRender.image fb "Final image"]⟩
        else Except.ok s
  else if pyEndsWith ev.etype ".error" = true ∨ ev.etype = "error" then
    Except.ok ⟨s.gallery, s.final_bytes,
      s.renders ++ [ImgRender.errorMsg
        ("Image generation error: " ++ imageErrorText ev)]⟩
  else
    Except.ok s

/-- Result of draining the image event stream: either the loop finishes, or
an exception was raised while processing an event (the state carries the
renders already performed). -/
inductive ImgLoopResult where
  | ok (s : ImgLoopState)
  | raised (s : ImgLoopState) (msg : String)
deriving DecidableEq, Repr

/-- Drain the image event stream from a given state. -/
def imageLoop (decode : String → List Nat) :
    ImgLoopState → List ImageEvent → ImgLoopResult
  | s, [] => ImgLoopResult.ok s
  | s, ev :: rest =>
    match processImageEvent decode s ev with
    | Except.ok s2 => imageLoop decode s2 rest
    | Except.error m => ImgLoopResult.raised s m

/-- The image tab's outcome: the UI actions performed and the final value
of the `final_bytes` variable (the downloadable bytes, when a download was
offered, appear as an `ImgRender.download` action). -/
structure ImgResult where
  renders : List ImgRender
  final_bytes : Option (List Nat)
deriving DecidableEq, Repr

/-- The code after the loop: `if final_bytes is None and gallery:` installs
the last partial as fallback (rendering it with the fallback caption), then
`if final_bytes:` (truthiness — empty bytes are falsy) offers the download,
else shows the info notice. -/
def finishImage (s : ImgLoopState) : ImgResult :=
  let afterFallback : Option (List Nat) × List ImgRender :=
    match s.final_bytes with
    | none =>
        match s.gallery.getLast? with
        | some lastFrame =>
            (some lastFrame,
             s.renders ++ [ImgRender.image lastFrame "Final (from last partial)"])
        | none => (none, s.renders)
    | some b => (some b, s.renders)
  match afterFallback.1 with
  | some b =>
      if b ≠ [] then
        ⟨afterFallback.2 ++ [ImgRender.download b], some b⟩
      else
        ⟨afterFallback.2 ++ [ImgRender.info "No image bytes received. Try again."],
         some b⟩
  | none =>
      ⟨afterFallback.2 ++ [ImgRender.info "No image bytes received. Try again."],
       none⟩

/-- One press of "Generate image" over a scripted event stream: drain the
events from the empty state; on an exception, `st.error` then `st.stop()`
(the post-loop code never runs and nothing is downloadable). -/
def tab_image_generate (decode : String → List Nat)
    (events : List ImageEvent) : ImgResult :=
  match imageLoop decode ⟨[], none, []⟩ events with
  | ImgLoopResult.ok s => finishImage s
  | ImgLoopResult.raised s m =>
      ⟨s.renders ++ [ImgRender.errorMsg ("Image generation error: " ++ m)], none⟩

/-- Shorthand for a partial-frame event carrying a payload. -/
def previewEvent (b64 : String) : ImageEvent :=
  ⟨"image_generation.partial_image", some b64, none⟩

/-- Shorthand for a completion event carrying a payload. -/
def completedEvent (b64 : String) : ImageEvent :=
  ⟨"image_generation.completed", some b64, none⟩

/-- The raw `st.session_state` dict, tracking whether each of the two keys
the app uses is present (`st.session_state.clear()` removes all keys). -/
structure RawSession where
  messagesKey : Option (List Turn)
  responseIdKey : Option (Option String)
deriving DecidableEq, Repr

/-- The "New chat" button: `st.session_state.clear()` (the `st.rerun()`
that follows re-executes the script, which re-applies the defaults). -/
def sessionClear (_ : RawSession) : RawSession :=
  ⟨none, none⟩

/-- The two `st.session_state.setdefault` lines at the top of the script:
an absent key is filled with `[]` / `None`, a present key is kept.  Returns
the conversation state the rest of the script sees. -/
def sessionWithDefaults (s : RawSession) : ConversationState :=
  ⟨s.messagesKey.getD [], s.responseIdKey.getD none⟩

/-- A scripted chat turn: the prompt plus the stream's events and final
response (for a turn whose call does not raise). -/
structure TurnScript where
  prompt : String
  events : List TextStreamEvent
  final : FinalResponse
deriving DecidableEq, Repr

/-- The `out_text` the persist block computes for a scripted non-raising
turn. -/
def outTextOf (t : TurnScript) : String :=
  pyOr t.final.output_text (accText t.events)

/-- Run a sequence of non-raising chat turns from a starting store. -/
def runSuccTurns : ConversationState → List TurnScript → ConversationState
  | st, [] => st
  | st, t :: rest =>
      runSuccTurns
        (tab_chat t.prompt (TextStreamOutcome.success t.events t.final) st).1 rest

theorem processTextEvents_append (xs ys : List TextStreamEvent) (acc : String) :
    processTextEvents acc (xs ++ ys) =
      ((processTextEvents (processTextEvents acc xs).1 ys).1,
       (processTextEvents acc xs).2 ++
         (processTextEvents (processTextEvents acc xs).1 ys).2) := by
  induction xs generalizing acc with
  | nil => simp [processTextEvents]
  | cons e rest ih =>
    cases e with
    | delta d => simp [processTextEvents, ih]
    | errorEv e2 => simp [processTextEvents, ih]
    | otherEv => simp [processTextEvents, ih]

theorem tab_chat_success_pos (p : String) (evs : List TextStreamEvent)
    (fr : FinalResponse) (st : ConversationState)
    (h : pyOr fr.output_text (accText evs) ≠ "") :
    tab_chat p (TextStreamOutcome.success evs fr) st =
      (⟨st.messages ++
          [⟨"user", p⟩, ⟨"assistant", pyOr fr.output_text (accText evs)⟩],
        fr.id⟩,
       (processTextEvents "" evs).2 ++
         [PlaceholderRender.markdown (pyOr fr.output_text (accText evs))]) := by
  simp only [tab_chat, accText, Option.some_bind] at *
  rw [if_pos h]
  simp

theorem tab_chat_success_neg (p : String) (evs : List TextStreamEvent)
    (fr : FinalResponse) (st : ConversationState)
    (h : pyOr fr.output_text (accText evs) = "") :
    tab_chat p (TextStreamOutcome.success evs fr) st =
      (⟨st.messages ++ [⟨"user", p⟩], st.previous_response_id⟩,
       (processTextEvents "" evs).2) := by
  simp only [tab_chat, accText, Option.some_bind] at *
  rw [if_neg (by simp [h])]

theorem tab_chat_exception_pos (p : String) (evs : List TextStreamEvent)
    (msg : String) (st : ConversationState)
    (h : accText evs ≠ "") :
    tab_chat p (TextStreamOutcome.exception evs msg) st =
      (⟨st.messages ++ [⟨"user", p⟩, ⟨"assistant", accText evs⟩], none⟩,
       (processTextEvents "" evs).2 ++
         [PlaceholderRender.error ("OpenAI error: " ++ msg),
          PlaceholderRender.markdown (accText evs)]) := by
  simp only [tab_chat, accText, Option.none_bind, pyOr] at *
  rw [if_pos h]
  simp

theorem tab_chat_exception_neg (p : String) (evs : List TextStreamEvent)
    (msg : String) (st : ConversationState)
    (h : accText evs = "") :
    tab_chat p (TextStreamOutcome.exception evs msg) st =
      (⟨st.messages ++ [⟨"user", p⟩], st.previous_response_id⟩,
       (processTextEvents "" evs).2 ++
         [PlaceholderRender.error ("OpenAI error: " ++ msg)]) := by
  simp only [tab_chat, accText, Option.none_bind, pyOr] at *
  rw [if_neg (by simp [h])]

theorem imageLoop_nil (decode : String → List Nat) (s : ImgLoopState) :
    imageLoop decode s [] = ImgLoopResult.ok s := rfl

theorem imageLoop_preview_step (decode : String → List Nat) (s : ImgLoopState)
    (a : String) (rest : List ImageEvent) :
    imageLoop decode s (previewEvent a :: rest) =
      imageLoop decode
        ⟨s.gallery ++ [decode a], s.final_bytes,
         s.renders ++ [ImgRender.image (decode a)
           ("Partial preview #" ++ toString (s.gallery ++ [decode a]).length)]⟩
        rest := rfl

theorem imageLoop_completed_step (decode : String → List Nat) (s : ImgLoopState)
    (d : String) (rest : List ImageEvent) :
    imageLoop decode s (completedEvent d :: rest) =
      imageLoop decode
        ⟨s.gallery, some (decode d),
         s.renders ++ [ImgRender.image (decode d) "Final image"]⟩ rest := rfl

theorem processImageEvent_cases (decode : String → List Nat) (s : ImgLoopState)
    (ev : ImageEvent) :
    (∃ s2, processImageEvent decode s ev = Except.ok s2 ∧
      s2.final_bytes = s.final_bytes) ∨
    (∃ m, processImageEvent decode s ev = Except.error m) ∨
    (ev.etype = "image_generation.completed" ∨ ev.etype ∈ altFinalNames) := by
  unfold processImageEvent
  by_cases h1 : ev.etype = "image_generation.partial_image"
  · rw [if_pos h1]
    cases hb : ev.b64_json with
    | none => right; left; exact ⟨_, rfl⟩
    | some v => left; exact ⟨_, rfl, rfl⟩
  · rw [if_neg h1]
    by_cases h2 : ev.etype = "image_generation.completed"
    · right; right; left; exact h2
    · rw [if_neg h2]
      by_cases h3 : ev.etype ∈ altFinalNames
      · right; right; right; exact h3
      · rw [if_neg h3]
        by_cases h4 : pyEndsWith ev.etype ".error" = true ∨ ev.etype = "error"
        · rw [if_pos h4]; left; exact ⟨_, rfl, rfl⟩
        · rw [if_neg h4]; left; exact ⟨_, rfl, rfl⟩

theorem imageLoop_no_completion (decode : String → List Nat) :
    ∀ (events : List ImageEvent) (s0 s : ImgLoopState),
      (∀ ev ∈ events,
        ev.etype ≠ "image_generation.completed" ∧ ev.etype ∉ altFinalNames) →
      imageLoop decode s0 events = ImgLoopResult.ok s →
      s.final_bytes = s0.final_bytes := by
  intro events
  induction events with
  | nil =>
      intro s0 s _ h
      simp only [imageLoop] at h
      cases h
      rfl
  | cons ev rest ih =>
      intro s0 s hnc hrun
      have hev := hnc ev (List.mem_cons_self ev rest)
      have hrest : ∀ e ∈ rest,
          e.etype ≠ "image_generation.completed" ∧ e.etype ∉ altFinalNames :=
        fun e he => hnc e (List.mem_cons_of_mem ev he)
      rcases processImageEvent_cases decode s0 ev with ⟨s2, hs2, hfb⟩ | ⟨m, hm⟩ | hk
      · simp only [imageLoop, hs2] at hrun
        rw [ih s2 s hrest hrun, hfb]
      · simp only [imageLoop, hm] at hrun
        cases hrun
      · rcases hk with hk | hk
        · exact absurd hk hev.1
        · exact absurd hk hev.2

theorem pyOr_none (b : String) : pyOr none b = b := rfl

theorem pyOr_some_empty (b : String) : pyOr (some "") b = b := rfl

/-- Claim C7: for every prior session state (any turn sequence, any
last_response_id), the "New chat" reset followed by the script's
`setdefault` lines yields an empty turn sequence and an absent
last_response_id. -/
theorem C7_reset_clears (raw : RawSession) :
    sessionWithDefaults (sessionClear raw) = ⟨[], none⟩ := rfl

/-- Claim C6: for a stream delivering the deltas "Hel" then "lo" and a
final response with no aggregated output text, the displayed assistant
content (every placeholder render after the loop, ending in the final one)
and the stored assistant turn both equal the concatenation "Hello". -/
theorem C6_deltas_concatenate (p : String) (i : Option String)
    (st : ConversationState) :
    tab_chat p (TextStreamOutcome.success
        [TextStreamEvent.delta "Hel", TextStreamEvent.delta "lo"]
        ⟨none, i⟩) st =
      (⟨st.messages ++ [⟨"user", p⟩, ⟨"assistant", "Hello"⟩], i⟩,
       [PlaceholderRender.markdown "Hel", PlaceholderRender.markdown "Hello",
        PlaceholderRender.markdown "Hello"]) := by
  rw [tab_chat_success_pos p
    [TextStreamEvent.delta "Hel", TextStreamEvent.delta "lo"] ⟨none, i⟩ st
    (by decide :
      pyOr none (accText [TextStreamEvent.delta "Hel", TextStreamEvent.delta "lo"]) ≠ "")]
  rfl

/-- Claim C8: when, after the stream is drained, the final response's
aggregated text is absent or empty and the accumulator is empty, the chat
tab appends no assistant turn, performs no render beyond the loop's own,
stores nothing, and leaves previous_response_id untouched. -/
theorem C8_empty_result_silent (p : String) (evs : List TextStreamEvent)
    (fr : FinalResponse) (st : ConversationState)
    (h1 : fr.output_text = none ∨ fr.output_text = some "")
    (h2 : accText evs = "") :
    tab_chat p (TextStreamOutcome.success evs fr) st =
      (⟨st.messages ++ [⟨"user", p⟩], st.previous_response_id⟩,
       (processTextEvents "" evs).2) := by
  apply tab_chat_success_neg
  rcases h1 with h | h <;> simp [pyOr, h, h2]

theorem C8_witness :
    tab_chat "q" (TextStreamOutcome.success [TextStreamEvent.otherEv]
        ⟨none, some "rid"⟩) ⟨[], some "r0"⟩ =
      (⟨[⟨"user", "q"⟩], some "r0"⟩, []) :=
  C8_empty_result_silent "q" [TextStreamEvent.otherEv] ⟨none, some "rid"⟩
    ⟨[], some "r0"⟩ (Or.inl rfl) (by decide)

/-- Claim C10: a final response carrying the empty string as its
output_text behaves exactly like one carrying no aggregated text at all:
the invocation's entire result is identical, and whenever delta text was
accumulated, that accumulated text is what is stored as the assistant turn
and what the last placeholder render displays. -/
theorem C10_empty_output_text_is_absent (p : String) (i : Option String)
    (evs : List TextStreamEvent) (st : ConversationState) :
    tab_chat p (TextStreamOutcome.success evs ⟨some "", i⟩) st =
      tab_chat p (TextStreamOutcome.success evs ⟨none, i⟩) st ∧
    (accText evs ≠ "" →
      (tab_chat p (TextStreamOutcome.success evs ⟨some "", i⟩) st).1.messages =
        st.messages ++ [⟨"user", p⟩, ⟨"assistant", accText evs⟩] ∧
      (tab_chat p (TextStreamOutcome.success evs ⟨some "", i⟩) st).2.getLast? =
        some (PlaceholderRender.markdown (accText evs))) := by
  constructor
  · simp only [tab_chat, Option.some_bind, Option.none_bind, pyOr_some_empty,
      pyOr_none]
  · intro h
    rw [tab_chat_success_pos p evs ⟨some "", i⟩ st (by simpa [pyOr_some_empty] using h)]
    constructor
    · simp [pyOr_some_empty]
    · simp [pyOr_some_empty, List.getLast?_concat]

theorem C10_witness :
    (tab_chat "q2" (TextStreamOutcome.success [TextStreamEvent.delta "ok"]
        ⟨some "", some "r9"⟩) ⟨[], none⟩).1.messages =
      [⟨"user", "q2"⟩, ⟨"assistant", "ok"⟩] :=
  ((C10_empty_output_text_is_absent "q2" (some "r9") [TextStreamEvent.delta "ok"]
      ⟨[], none⟩).2 (by decide)).1

theorem runSuccTurns_last_id (st0 : ConversationState) (ts : List TurnScript)
    (t : TurnScript) (h : ∀ u ∈ ts ++ [t], outTextOf u ≠ "") :
    (runSuccTurns st0 (ts ++ [t])).previous_response_id = t.final.id := by
  induction ts generalizing st0 with
  | nil =>
      have ht : outTextOf t ≠ "" := h t (by simp)
      simp only [List.nil_append, runSuccTurns]
      rw [tab_chat_success_pos t.prompt t.events t.final st0 ht]
  | cons u rest ih =>
      simp only [List.cons_append, runSuccTurns]
      exact ih _ (fun v hv => h v (List.mem_cons_of_mem u hv))

/-- Claim C1 (counterexample): a transport exception raised after the
delta "Hi" was accumulated does append a new assistant turn and does change
last_response_id (here from `some "r0"` to `none`), contradicting the
claim that an exception at any point leaves the turn sequence without a
new assistant turn and last_response_id unchanged. -/
theorem C1_counterexample :
    (tab_chat "ping" (TextStreamOutcome.exception [TextStreamEvent.delta "Hi"]
        "boom") ⟨[], some "r0"⟩).1 =
      ⟨[⟨"user", "ping"⟩, ⟨"assistant", "Hi"⟩], none⟩ ∧
    (tab_chat "ping" (TextStreamOutcome.exception [TextStreamEvent.delta "Hi"]
        "boom") ⟨[], some "r0"⟩).1.previous_response_id ≠ some "r0" := by
  decide

/-- Claim C1 (amended): on a transport/API exception, if no delta text was
accumulated before the raise, the turn sequence gains only the user turn
and last_response_id is unchanged; if nonempty delta text was accumulated,
the accumulated text is persisted as an assistant turn and
last_response_id is set to the absent value. -/
theorem C1_exception_outcome (p msg : String) (evs : List TextStreamEvent)
    (st : ConversationState) :
    (accText evs = "" →
      (tab_chat p (TextStreamOutcome.exception evs msg) st).1 =
        ⟨st.messages ++ [⟨"user", p⟩], st.previous_response_id⟩) ∧
    (accText evs ≠ "" →
      (tab_chat p (TextStreamOutcome.exception evs msg) st).1 =
        ⟨st.messages ++ [⟨"user", p⟩, ⟨"assistant", accText evs⟩], none⟩) := by
  constructor
  · intro h
    rw [tab_chat_exception_neg p evs msg st h]
  · intro h
    rw [tab_chat_exception_pos p evs msg st h]

theorem C1_witness :
    (tab_chat "q" (TextStreamOutcome.exception [TextStreamEvent.delta "Hel"]
        "down") ⟨[], some "r7"⟩).1 =
      ⟨[⟨"user", "q"⟩, ⟨"assistant", "Hel"⟩], none⟩ :=
  (C1_exception_outcome "q" "down" [TextStreamEvent.delta "Hel"]
    ⟨[], some "r7"⟩).2 (by decide)

/-- Claim C2 (counterexample): a failed call does change
last_response_id — with the delta "par" accumulated before the exception,
the stored identifier `some "resp-1"` is overwritten (with `none`). -/
theorem C2_counterexample :
    (tab_chat "hi" (TextStreamOutcome.exception [TextStreamEvent.delta "par"]
        "reset") ⟨[⟨"user", "a"⟩, ⟨"assistant", "b"⟩], some "resp-1"⟩).1.previous_response_id ≠
      some "resp-1" := by
  decide

/-- Claim C2 (amended): after N consecutive successful turns (each
producing a nonempty out_text), previous_response_id equals the identifier
of the Nth call's final response; a successful call with empty out_text
leaves it unchanged; a failed call with an empty accumulator leaves it
unchanged; but a failed call with a nonempty accumulator overwrites it
with the absent value. -/
theorem C2_response_id_tracking :
    (∀ (st0 : ConversationState) (ts : List TurnScript) (t : TurnScript),
      (∀ u ∈ ts ++ [t], outTextOf u ≠ "") →
      (runSuccTurns st0 (ts ++ [t])).previous_response_id = t.final.id) ∧
    (∀ (st0 : ConversationState) (p : String) (evs : List TextStreamEvent)
        (fr : FinalResponse),
      pyOr fr.output_text (accText evs) = "" →
      (tab_chat p (TextStreamOutcome.success evs fr) st0).1.previous_response_id =
        st0.previous_response_id) ∧
    (∀ (st0 : ConversationState) (p msg : String) (evs : List TextStreamEvent),
      accText evs = "" →
      (tab_chat p (TextStreamOutcome.exception evs msg) st0).1.previous_response_id =
        st0.previous_response_id) ∧
    (∀ (st0 : ConversationState) (p msg : String) (evs : List TextStreamEvent),
      accText evs ≠ "" →
      (tab_chat p (TextStreamOutcome.exception evs msg) st0).1.previous_response_id =
        none) := by
  refine ⟨runSuccTurns_last_id, ?_, ?_, ?_⟩
  all_goals intros
  · rw [tab_chat_success_neg _ _ _ _ (by assumption)]
  · rw [tab_chat_exception_neg _ _ _ _ (by assumption)]
  · rw [tab_chat_exception_pos _ _ _ _ (by assumption)]

theorem C2_witness :
    (runSuccTurns ⟨[], none⟩
      ([⟨"a", [TextStreamEvent.delta "x"], ⟨none, some "r1"⟩⟩] ++
        [⟨"b", [], ⟨some "fin", some "r2"⟩⟩])).previous_response_id = some "r2" :=
  C2_response_id_tracking.1 ⟨[], none⟩
    [⟨"a", [TextStreamEvent.delta "x"], ⟨none, some "r1"⟩⟩]
    ⟨"b", [], ⟨some "fin", some "r2"⟩⟩ (by decide)

/-- Claim C3 (counterexample): a failed turn does not leave the turn
sequence length unchanged — the user turn appended before the call
persists, so an exception with no accumulated text grows the sequence by
1, not 0. -/
theorem C3_counterexample :
    (tab_chat "hello" (TextStreamOutcome.exception [] "netdown")
        ⟨[], none⟩).1.messages.length ≠
      (⟨[], none⟩ : ConversationState).messages.length := by
  decide

/-- Claim C3 (amended): a successful turn with nonempty out_text grows the
turn sequence by exactly 2 (the user turn then the assistant turn); a
successful turn with empty out_text grows it by 1 (the user turn only); a
failed turn grows it by 1 when no delta text was accumulated and by 2
(user turn plus assistant turn holding the accumulated text) when delta
text was accumulated — never by 0. -/
theorem C3_turn_sequence_growth (st : ConversationState) (p msg : String)
    (evs : List TextStreamEvent) (fr : FinalResponse) :
    (pyOr fr.output_text (accText evs) ≠ "" →
      (tab_chat p (TextStreamOutcome.success evs fr) st).1.messages =
        st.messages ++
          [⟨"user", p⟩, ⟨"assistant", pyOr fr.output_text (accText evs)⟩] ∧
      (tab_chat p (TextStreamOutcome.success evs fr) st).1.messages.length =
        st.messages.length + 2) ∧
    (pyOr fr.output_text (accText evs) = "" →
      (tab_chat p (TextStreamOutcome.success evs fr) st).1.messages =
        st.messages ++ [⟨"user", p⟩] ∧
      (tab_chat p (TextStreamOutcome.success evs fr) st).1.messages.length =
        st.messages.length + 1) ∧
    (accText evs = "" →
      (tab_chat p (TextStreamOutcome.exception evs msg) st).1.messages.length =
        st.messages.length + 1) ∧
    (accText evs ≠ "" →
      (tab_chat p (TextStreamOutcome.exception evs msg) st).1.messages.length =
        st.messages.length + 2) := by
  refine ⟨fun h => ?_, fun h => ?_, fun h => ?_, fun h => ?_⟩
  · rw [tab_chat_success_pos p evs fr st h]
    simp
  · rw [tab_chat_success_neg p evs fr st h]
    simp
  · rw [tab_chat_exception_neg p evs msg st h]
    simp
  · rw [tab_chat_exception_pos p evs msg st h]
    simp [List.length_append]

theorem C3_witness :
    (tab_chat "w" (TextStreamOutcome.success [TextStreamEvent.delta "yo"]
        ⟨none, some "r3"⟩) ⟨[], none⟩).1.messages.length = 0 + 2 :=
  ((C3_turn_sequence_growth ⟨[], none⟩ "w" "unused" [TextStreamEvent.delta "yo"]
      ⟨none, some "r3"⟩).1 (by decide)).2

theorem processTextEvents_error_insert (acc e : String)
    (pre post : List TextStreamEvent) :
    processTextEvents acc (pre ++ TextStreamEvent.errorEv e :: post) =
      ((processTextEvents (processTextEvents acc pre).1 post).1,
       (processTextEvents acc pre).2 ++ PlaceholderRender.error e ::
         (processTextEvents (processTextEvents acc pre).1 post).2) := by
  rw [processTextEvents_append]
  simp [processTextEvents]

theorem imageLoop_error_event_step (decode : String → List Nat)
    (s : ImgLoopState) (ev : ImageEvent) (rest : List ImageEvent)
    (h : pyEndsWith ev.etype ".error" = true ∨ ev.etype = "error") :
    imageLoop decode s (ev :: rest) =
      imageLoop decode
        ⟨s.gallery, s.final_bytes,
         s.renders ++ [ImgRender.errorMsg
           ("Image generation error: " ++ imageErrorText ev)]⟩ rest := by
  have hne1 : ev.etype ≠ "image_generation.partial_image" := by
    intro hq
    rcases h with h | h <;> rw [hq] at h
    · exact absurd h (by decide)
    · exact absurd h (by decide)
  have hne2 : ev.etype ≠ "image_generation.completed" := by
    intro hq
    rcases h with h | h <;> rw [hq] at h
    · exact absurd h (by decide)
    · exact absurd h (by decide)
  have hne3 : ev.etype ∉ altFinalNames := by
    intro hm
    simp only [altFinalNames, List.mem_cons, List.not_mem_nil, or_false] at hm
    rcases h with h | h <;>
      rcases hm with h1 | h1 | h1 | h1 <;> rw [h1] at h <;> exact absurd h (by decide)
  have hstep : processImageEvent decode s ev =
      Except.ok ⟨s.gallery, s.final_bytes,
        s.renders ++ [ImgRender.errorMsg
          ("Image generation error: " ++ imageErrorText ev)]⟩ := by
    unfold processImageEvent
    rw [if_neg hne1, if_neg hne2, if_neg hne3, if_pos h]
  simp only [imageLoop, hstep]

/-- Claim C9: a stream-level error event (for the chat tab, an
`errorEv`; for the image tab, an event whose kind ends in ".error" or is
exactly "error") surfaces an inline error render, and the draining loop
continues: the accumulator / gallery / final bytes are untouched and the
remaining events are processed exactly as they would have been. -/
theorem C9_error_events_surface_and_continue :
    (∀ (acc e : String) (pre post : List TextStreamEvent),
      processTextEvents acc (pre ++ TextStreamEvent.errorEv e :: post) =
        ((processTextEvents (processTextEvents acc pre).1 post).1,
         (processTextEvents acc pre).2 ++ PlaceholderRender.error e ::
           (processTextEvents (processTextEvents acc pre).1 post).2)) ∧
    (∀ (decode : String → List Nat) (s : ImgLoopState) (ev : ImageEvent)
        (rest : List ImageEvent),
      pyEndsWith ev.etype ".error" = true ∨ ev.etype = "error" →
      imageLoop decode s (ev :: rest) =
        imageLoop decode
          ⟨s.gallery, s.final_bytes,
           s.renders ++ [ImgRender.errorMsg
             ("Image generation error: " ++ imageErrorText ev)]⟩ rest) :=
  ⟨processTextEvents_error_insert, imageLoop_error_event_step⟩

theorem C9_witness :
    imageLoop (fun s => [s.length]) ⟨[], none, []⟩
        (⟨"error", none, some "bad"⟩ :: [previewEvent "aa"]) =
      imageLoop (fun s => [s.length])
        ⟨[], none, [ImgRender.errorMsg "Image generation error: bad"]⟩
        [previewEvent "aa"] :=
  C9_error_events_surface_and_continue.2 (fun s => [s.length]) ⟨[], none, []⟩
    ⟨"error", none, some "bad"⟩ [previewEvent "aa"] (Or.inr rfl)

/-- Claim C4: for a stream of exactly three partial-frame events followed
by one completion event, the image tab shows exactly three preview updates
(captioned with their ordinals) and one final update, and the
returned/downloadable bytes are the decoded completion payload. -/
theorem C4_three_previews_then_final (decode : String → List Nat)
    (a b c d : String) (hd : decode d ≠ []) :
    tab_image_generate decode
        [previewEvent a, previewEvent b, previewEvent c, completedEvent d] =
      ⟨[ImgRender.image (decode a) "Partial preview #1",
        ImgRender.image (decode b) "Partial preview #2",
        ImgRender.image (decode c) "Partial preview #3",
        ImgRender.image (decode d) "Final image",
        ImgRender.download (decode d)], some (decode d)⟩ := by
  have hloop : imageLoop decode ⟨[], none, []⟩
      [previewEvent a, previewEvent b, previewEvent c, completedEvent d] =
      ImgLoopResult.ok ⟨[decode a, decode b, decode c], some (decode d),
        [ImgRender.image (decode a) "Partial preview #1",
         ImgRender.image (decode b) "Partial preview #2",
         ImgRender.image (decode c) "Partial preview #3",
         ImgRender.image (decode d) "Final image"]⟩ := by
    rw [imageLoop_preview_step, imageLoop_preview_step, imageLoop_preview_step,
        imageLoop_completed_step, imageLoop_nil]
    simp only [List.nil_append, List.cons_append, List.length_cons,
      List.length_nil, List.length_append, Nat.reduceAdd]
    rfl
  simp only [tab_image_generate, hloop, finishImage]
  rw [if_pos hd]
  rfl

theorem C4_witness :
    tab_image_generate (fun s => [s.length])
        [previewEvent "aa", previewEvent "bb", previewEvent "cc",
         completedEvent "dddd"] =
      ⟨[ImgRender.image [2] "Partial preview #1",
        ImgRender.image [2] "Partial preview #2",
        ImgRender.image [2] "Partial preview #3",
        ImgRender.image [4] "Final image",
        ImgRender.download [4]], some [4]⟩ :=
  C4_three_previews_then_final (fun s => [s.length]) "aa" "bb" "cc" "dddd"
    (by decide)

/-- Claim C5: when the stream is drained without raising and contains no
recognized completion-kind event, then: with no captured frame the result
has no bytes and ends in the informational (non-error) notice; with at
least one captured frame, the returned bytes are the last captured
frame's bytes and they are displayed with the fallback caption. -/
theorem C5_no_completion_fallback (decode : String → List Nat)
    (events : List ImageEvent) (s : ImgLoopState)
    (hok : imageLoop decode ⟨[], none, []⟩ events = ImgLoopResult.ok s)
    (hnc : ∀ ev ∈ events,
      ev.etype ≠ "image_generation.completed" ∧ ev.etype ∉ altFinalNames) :
    (s.gallery = [] →
      tab_image_generate decode events =
        ⟨s.renders ++ [ImgRender.info "No image bytes received. Try again."],
         none⟩) ∧
    (∀ lastFrame, s.gallery.getLast? = some lastFrame →
      (tab_image_generate decode events).final_bytes = some lastFrame ∧
      ImgRender.image lastFrame "Final (from last partial)" ∈
        (tab_image_generate decode events).renders) := by
  have hfb : s.final_bytes = none :=
    imageLoop_no_completion decode events ⟨[], none, []⟩ s hnc hok
  have hgen : tab_image_generate decode events = finishImage s := by
    simp only [tab_image_generate, hok]
  constructor
  · intro hg
    rw [hgen]
    simp [finishImage, hfb, hg]
  · intro lastFrame hl
    rw [hgen]
    simp only [finishImage, hfb, hl]
    constructor
    · split <;> rfl
    · split <;> simp

theorem C5_witness :
    (tab_image_generate (fun s => [s.length])
        [previewEvent "aa", previewEvent "bbb"]).final_bytes = some [3] ∧
    ImgRender.image [3] "Final (from last partial)" ∈
      (tab_image_generate (fun s => [s.length])
        [previewEvent "aa", previewEvent "bbb"]).renders :=
  (C5_no_completion_fallback (fun s => [s.length])
      [previewEvent "aa", previewEvent "bbb"]
      ⟨[[2], [3]], none,
       [ImgRender.image [2] "Partial preview #1",
        ImgRender.image [3] "Partial preview #2"]⟩
      (by decide) (by decide)).2 [3] (by decide)
